import Mathlib

/-!
Verification development for the identity credential lifecycle of the
X-sell marketplace backend: authentication, role transitions, superuser
bootstrap, verification codes and the three-phase password-reset protocol.

The definitions below are a shallow embedding of the Python source:
`app/core/auth_service/auth_utils.py`, `app/crud/user_management.py`,
`app/services/auth/superuser_service.py`, `app/utils/generate.py`,
`app/models/user.py` and `app/utils/responses/exceptions.py`.
The database session is modelled as explicit lists of records; async
functions become pure functions from the pre-state; raised HTTP
exceptions become the error side of an `Except`.
-/

namespace XSell

/-- The role enumeration of `app/models/user.py` (`UserRole`). -/
inductive UserRole where
  | USER
  | MERCHANT
  | ADMIN
  | SUPER_ADMIN
  | SUPERUSER
deriving DecidableEq, Repr

/-- The `users` table row of `app/models/user.py`, restricted to the columns
the authentication core reads or writes. Nullable columns are `Option`. -/
structure User where
  id : Nat
  email : String
  hashed_password : Option String
  unique_id : Option String
  role : UserRole
  is_active : Bool
  is_verified : Bool
  admin_approval : Bool
deriving DecidableEq, Repr

/-- Constructor tags for the error taxonomy, used to compare error kinds
independently of the carried reason string. -/
inductive ErrKind where
  | notFound
  | badRequest
  | forbidden
  | invalidCredentials
  | emailNotRegistered
  | invalidVerificationCode
  | alreadyVerified
deriving DecidableEq, Repr

/-- Raised HTTP exceptions of `app/utils/responses/exceptions.py` (and of the
mirrored `Exceptions` class used by `auth_utils.py`), as typed errors.
Each constructor carries the `detail` reason string passed at the raise
site (or the default detail of the corresponding static method). -/
inductive Err where
  | notFound (detail : String)
  | badRequest (detail : String)
  | forbidden (detail : String)
  | invalidCredentials (detail : String)
  | emailNotRegistered (detail : String)
  | invalidVerificationCode (detail : String)
  | alreadyVerified (detail : String)
deriving DecidableEq, Repr

/-- The kind (constructor tag) of an error, forgetting the reason string. -/
def Err.kind : Err → ErrKind
  | .notFound _ => .notFound
  | .badRequest _ => .badRequest
  | .forbidden _ => .forbidden
  | .invalidCredentials _ => .invalidCredentials
  | .emailNotRegistered _ => .emailNotRegistered
  | .invalidVerificationCode _ => .invalidVerificationCode
  | .alreadyVerified _ => .alreadyVerified

/-- The identity-store lookup used by `user_crud.get(db, email=...)` and
`user_crud.get_user_by_email`: first row whose `email` column matches. -/
def findByEmail (users : List User) (email : String) : Option User :=
  users.find? (fun u => u.email == email)

/-- An ORM-style committed update of one row: every row whose primary key
equals the updated row is replaced by the updated row. -/
def replaceById (users : List User) (u : User) : List User :=
  users.map (fun v => if v.id == u.id then u else v)

/-- Modelled from the spec: `IDGenerator.generate_id(prefix, totalLength)`
of the missing module `app.core.utils.generate` returns the prefix followed
by random alphanumeric characters (spec 4.1). The random part is passed in
explicitly as `rand`, making the random source an oracle input. -/
def generate_id (pre rand : String) : String := pre ++ rand

/-- The role tag used when rotating `unique_id` (the `IDPrefix` values of the
missing `app.core.utils.generate`, as named in the spec: role-prefixed ids
for ADMIN, SUPER_ADMIN and SUPERUSER). -/
def roleTag : UserRole → String
  | .ADMIN => "ADMIN"
  | .SUPER_ADMIN => "SUPER_ADMIN"
  | .SUPERUSER => "SUPERUSER"
  | _ => ""

/-- The result of a successful `update_role` call: the committed store, the
refreshed target row, and the success detail string. -/
structure RoleUpdateOk where
  store : List User
  target : User
  detail : String
deriving DecidableEq, Repr

/-- Continuation of `update_role` after the actor-role rules (lines 114-134
of `auth_utils.py`): the frozen SUPERUSER check, the same-role check, and
the transition logic followed by the commit. -/
def update_role_apply (store : List User) (db_user : User) (new_role : UserRole)
    (rand : String) : Except Err RoleUpdateOk :=
  if db_user.role = UserRole.SUPERUSER ∧ new_role ≠ UserRole.SUPERUSER then
    .error (.forbidden "Cannot change role of SUPERUSER")
  else if db_user.role = new_role then
    .error (.alreadyVerified "already upgrade role")
  else if new_role = UserRole.ADMIN then
    let u := { db_user with role := UserRole.ADMIN, unique_id := some (generate_id "ADMIN" rand) }
    .ok ⟨replaceById store u, u, "User role update success"⟩
  else if new_role = UserRole.SUPER_ADMIN then
    let u := { db_user with role := UserRole.SUPER_ADMIN, unique_id := some (generate_id "SUPER_ADMIN" rand) }
    .ok ⟨replaceById store u, u, "User role update success"⟩
  else if new_role = UserRole.USER then
    if db_user.role = UserRole.USER then
      .error (.forbidden "User already has USER role")
    else
      let u := { db_user with role := UserRole.USER, unique_id := none }
      .ok ⟨replaceById store u, u, "User role update success"⟩
  else
    -- new_role is MERCHANT or SUPERUSER: no transition branch matches, the
    -- function falls through to commit and returns success, nothing changed.
    .ok ⟨replaceById store db_user, db_user, "User role update success"⟩

/-- Embedding of `update_role` from `app/core/auth_service/auth_utils.py` (lines 93-134).
`rand` is the random suffix drawn by the single `IDGenerator.generate_id`
call that the taken branch performs, if any. The `isinstance(new_role,
UserRole)` check is discharged by typing. -/
def update_role (store : List User) (actor : User) (target_email : String)
    (new_role : UserRole) (rand : String) : Except Err RoleUpdateOk :=
  match findByEmail store target_email with
  | none => .error (.notFound "User not found")
  | some db_user =>
    -- Role rules
    if actor.role = UserRole.SUPERUSER then
      update_role_apply store db_user new_role rand
    else if actor.role = UserRole.SUPER_ADMIN then
      if ¬ (db_user.role = UserRole.USER ∨ db_user.role = UserRole.ADMIN)
          ∨ ¬ (new_role = UserRole.USER ∨ new_role = UserRole.ADMIN) then
        .error (.forbidden "SUPER_ADMIN can only toggle USER ↔ ADMIN")
      else
        update_role_apply store db_user new_role rand
    else
      .error (.forbidden "Only SUPERUSER or SUPER_ADMIN can change roles")

/-- Embedding of `login` from `app/core/auth_service/auth_utils.py` (lines 20-59).
The opaque password hasher is passed as `verify_pw` (compare a plain
password with a stored, possibly null, hash column) together with the
decoy hash `fake_hash` computed from the literal `"fake_password"`; the
randomized pre-lookup sleep has no state effect and is dropped; the
token-minting collaborator is opaque, so success returns the
authenticated row. -/
def login (store : List User) (verify_pw : String → Option String → Bool)
    (fake_hash : String) (email password unique_id : String) :
    Except Err User :=
  if email = "" ∨ password = "" ∨ unique_id = "" then
    .error (.invalidCredentials "Invalid email or password")
  else
    let db_user? := findByEmail store email
    -- Placeholders for timing attack resistance
    let hashed_password_to_check : Option String :=
      match db_user? with
      | some u => u.hashed_password
      | none => some fake_hash
    let unique_id_to_check : Option String :=
      match db_user? with
      | some u => u.unique_id
      | none => some "fake_unique_id_12345"
    let password_ok := verify_pw password hashed_password_to_check
    let unique_id_ok := some unique_id == unique_id_to_check
    match db_user? with
    | none => .error (.invalidCredentials "Invalid email or password")
    | some db_user =>
      if ¬ (password_ok ∧ unique_id_ok) then
        .error (.invalidCredentials "Invalid email or password")
      else if ¬ db_user.is_verified then
        .error (.forbidden "Email not verified")
      else if ¬ (db_user.role = UserRole.ADMIN ∨ db_user.role = UserRole.SUPER_ADMIN
                 ∨ db_user.role = UserRole.SUPERUSER) then
        .error (.forbidden "Admin approval required")
      else
        .ok db_user

/-- The `verification_code` table row of `app/models/user.py`. Time is
abstracted to minutes since an arbitrary epoch (`Nat`): the code only
compares instants and adds a 10 minute offset. -/
structure CodeRec where
  id : Nat
  user_id : Nat
  code : String
  expires_at : Nat
deriving DecidableEq, Repr

/-- Embedding of `VerificationCodeCrud.verify_code` from `app/crud/user_management.py`
(lines 62-79): select the first row matching the user id, the exact code
and a strictly later expiry; on a hit delete that row and return true,
otherwise return false leaving the store untouched. The surrounding
`try/except SQLAlchemyError` made the Python function total; the model is
total by construction. Returns the flag and the post-state. The row
selection (the SQL where clause) is named separately as `vcSelect`. -/
def vcSelect (now : Nat) (user_id : Nat) (code : String) : CodeRec → Bool :=
  fun r => r.user_id == user_id && r.code == code && decide (now < r.expires_at)

/-- See the comment above: the body of `VerificationCodeCrud.verify_code`. -/
def verify_code (codes : List CodeRec) (now : Nat) (user_id : Nat)
    (code : String) : Bool × List CodeRec :=
  match codes.find? (vcSelect now user_id code) with
  | some db_code => (true, codes.erase db_code)
  | none => (false, codes)

/-- Modelled from the spec: `VerificationManager.generate_code` of the
missing module `app.core.utils.generate` (spec 4.2 `issue`): store the
6-digit code `code` for the identity with expiry now + 10 minutes,
replacing any existing code for that identity (upsert, never two live
codes per identity). `freshId` is the primary key used if a new row is
inserted. -/
def issue_code (codes : List CodeRec) (user_id : Nat) (code : String)
    (now : Nat) (freshId : Nat) : List CodeRec :=
  codes.filter (fun r => r.user_id ≠ user_id)
    ++ [{ id := freshId, user_id := user_id, code := code, expires_at := now + 10 }]

/-- Truthiness of an optional string parameter in Python: `None` and the
empty string are falsy. -/
def truthyS : Option String → Bool
  | none => false
  | some s => s ≠ ""

/-- The role-driven rotation of `unique_id` shared by steps 2 and 3 of the
password-reset flow in `auth_utils.py` (lines 190-195 and 228-233): a
role-prefixed fresh id for SUPERUSER, SUPER_ADMIN and ADMIN, no change for
any other role. -/
def rotate_unique_id (u : User) (rand : String) : User :=
  if u.role = UserRole.SUPERUSER then
    { u with unique_id := some (generate_id "SUPERUSER" rand) }
  else if u.role = UserRole.SUPER_ADMIN then
    { u with unique_id := some (generate_id "SUPER_ADMIN" rand) }
  else if u.role = UserRole.ADMIN then
    { u with unique_id := some (generate_id "ADMIN" rand) }
  else u

/-- Embedding of `request_password_reset` from `auth_utils.py` (lines 138-174), step 1 of
the reset protocol. `cfg` is `settings.API_SUPERUSER_SECRET_KEY`; `code6`
is the 6-digit code drawn by the code generator and `freshId` the row id
used if the upsert inserts. Returns the sent code and the code store. -/
def request_password_reset (users : List User) (codes : List CodeRec)
    (email : String) (unique_id : Option String)
    (superuser_secret_key : Option String) (cfg : String)
    (code6 : String) (now : Nat) (freshId : Nat) :
    Except Err (String × List CodeRec) :=
  match findByEmail users email with
  | none => .error (.emailNotRegistered "Email is not registered")
  | some db_user =>
    if ¬ db_user.is_verified then
      .error (.forbidden "Email not verified")
    else if ¬ (db_user.role = UserRole.SUPERUSER ∨ db_user.role = UserRole.SUPER_ADMIN
               ∨ db_user.role = UserRole.ADMIN) then
      .error (.forbidden "Only ADMIN, SUPER_ADMIN, and SUPERUSER can use this reset flow")
    else if db_user.role = UserRole.SUPERUSER then
      if ¬ (truthyS superuser_secret_key ∧ truthyS unique_id) then
        .error (.forbidden "Superuser requires secret key and unique_id")
      else if superuser_secret_key ≠ some cfg then
        .error (.forbidden "Invalid superuser secret key")
      else if unique_id ≠ db_user.unique_id then
        .error (.invalidCredentials "Invalid unique_id")
      else
        .ok (code6, issue_code codes db_user.id code6 now freshId)
    else
      -- role is ADMIN or SUPER_ADMIN here
      if ¬ truthyS unique_id then
        .error (.forbidden "Admin/Superadmin requires unique_id")
      else if unique_id ≠ db_user.unique_id then
        .error (.invalidCredentials "Invalid unique_id")
      else
        .ok (code6, issue_code codes db_user.id code6 now freshId)

/-- Embedding of `verify_reset_code` from `auth_utils.py` (lines 177-203), step 2 of the
reset protocol: consume the verification code, then rotate `unique_id` to
a temporary OTP and return it. `rand` is the random suffix drawn by the
rotation. Returns the user store, the code store and the returned
`unique_id` payload. -/
def verify_reset_code (users : List User) (codes : List CodeRec)
    (email verification_code : String) (now : Nat) (rand : String) :
    Except Err (List User × List CodeRec × Option String) :=
  match findByEmail users email with
  | none => .error (.emailNotRegistered "Email is not registered")
  | some db_user =>
    match verify_code codes now db_user.id verification_code with
    | (false, _) => .error (.invalidVerificationCode "Invalid Verification code")
    | (true, codes2) =>
      let u2 := rotate_unique_id db_user rand
      .ok (replaceById users u2, codes2, u2.unique_id)

/-- Embedding of `reset_password_with_otp` from `auth_utils.py` (lines 206-241), step 3 of
the reset protocol: the OTP must equal the current `unique_id`; then the
password hash is replaced (`hash_pw` is the opaque hasher) and `unique_id`
is rotated again with random suffix `rand`. Returns the user store. -/
def reset_password_with_otp (users : List User) (email otp_unique_id : String)
    (new_password : String) (hash_pw : String → String) (rand : String) :
    Except Err (List User) :=
  match findByEmail users email with
  | none => .error (.emailNotRegistered "Email is not registered")
  | some db_user =>
    if some otp_unique_id ≠ db_user.unique_id then
      .error (.invalidCredentials "Invalid OTP unique_id")
    else
      let u2 := rotate_unique_id
        { db_user with hashed_password := some (hash_pw new_password) } rand
      .ok (replaceById users u2)

/-- Embedding of `create_superuser` from `app/services/auth/superuser_service.py`
(lines 12-35). `cfg` is `settings.API_SUPERUSER_SECRET_KEY`, `hash_pw` the
opaque hasher, `rand` the random suffix drawn by `generate_id`, `newId`
the primary key of the inserted row; the unset model columns take the
column defaults of `app/models/user.py`. Returns the store and the row. -/
def create_superuser (store : List User) (cfg : String) (email password secret_key : String)
    (hash_pw : String → String) (rand : String) (newId : Nat) :
    Except Err (List User × User) :=
  if secret_key ≠ cfg then
    .error (.forbidden "Forbidden")
  else
    match store.find? (fun u => u.role == UserRole.SUPERUSER) with
    | some _ => .error (.forbidden "Superuser already exists")
    | none =>
      let u : User := {
        id := newId
        email := email
        hashed_password := some (hash_pw password)
        unique_id := some (generate_id "SUPERUSER" rand)
        role := UserRole.SUPERUSER
        is_active := true
        is_verified := false
        admin_approval := false }
      .ok (store ++ [u], u)

/-- A Python value as far as the buggy `generate_verification_code` of
`app/utils/generate.py` observes one: the un-awaited coroutine returned by
calling the async `get_verification_code` without `await`, an ORM row, or
`None`. -/
inductive PyVal where
  | coroutine
  | record (r : CodeRec)
  | pynone
deriving DecidableEq, Repr

/-- Python truthiness for the values above: a coroutine object and an ORM
row are truthy, `None` is falsy. -/
def PyVal.truthy : PyVal → Bool
  | .coroutine => true
  | .record _ => true
  | .pynone => false

/-- Python exceptions that `generate_verification_code` can surface. -/
inductive PyError where
  | attributeError
deriving DecidableEq, Repr

/-- Setting the `code` attribute: allowed on an ORM row, but an
`AttributeError` on a coroutine object and on `None`. -/
def PyVal.set_code : PyVal → String → Except PyError PyVal
  | .record r, c => .ok (.record { r with code := c })
  | .coroutine, _ => .error .attributeError
  | .pynone, _ => .error .attributeError

/-- The expression `verification_code_crud.get_verification_code(db, user_id)`
as written in `app/utils/generate.py` line 16: the coroutine of the async
method is not awaited, so the value of the expression is the coroutine
object itself, whatever the store holds. -/
def get_verification_code_unawaited (_codes : List CodeRec) (_user_id : Nat) : PyVal :=
  .coroutine

/-- Committed update of one verification-code row by primary key. -/
def replaceCodeById (codes : List CodeRec) (r : CodeRec) : List CodeRec :=
  codes.map (fun v => if v.id == r.id then r else v)

/-- Embedding of `generate_verification_code` from `app/utils/generate.py` (lines 11-30) as
written: draw the 6-digit code `code6`, compute the expiry, fetch the
existing row without `await`, and branch on the truthiness of the result;
the truthy branch assigns to its `code` attribute. Returns the sent code
and the new code store, or the Python exception that escapes. -/
def generate_verification_code (codes : List CodeRec) (user_id : Nat)
    (code6 : String) (now : Nat) (freshId : Nat) :
    Except PyError (String × List CodeRec) :=
  let existing_code := get_verification_code_unawaited codes user_id
  if existing_code.truthy then
    match existing_code.set_code code6 with
    | .error e => .error e
    | .ok (.record r) =>
      let r2 := { r with expires_at := now + 10 }
      .ok (code6, replaceCodeById codes r2)
    | .ok _ => .error .attributeError
  else
    .ok (code6, codes ++ [{ id := freshId, user_id := user_id, code := code6,
                            expires_at := now + 10 }])

/-! Concrete rows used to evaluate the operations on closed inputs. -/

/-- A bootstrapped superuser row. -/
def suRoot : User :=
  ⟨1, "root@x.com", some "HROOT", some "SUPERUSERAAA", UserRole.SUPERUSER, true, true, true⟩

/-- An unprivileged user row with no secondary credential. -/
def bobUser : User :=
  ⟨2, "b@x.com", some "HBOB", none, UserRole.USER, true, true, false⟩

/-- A verified admin row with a known secondary credential. -/
def carolAdmin : User :=
  ⟨3, "c@x.com", some "HCAROL", some "ADMIN1A2B3C4", UserRole.ADMIN, true, true, true⟩

/-- A super admin row with a known secondary credential. -/
def danSuperAdmin : User :=
  ⟨4, "d@x.com", some "HDAN", some "SUPER_ADMINZZ", UserRole.SUPER_ADMIN, true, true, true⟩

/-- An unverified admin row with valid credentials. -/
def eveUnverified : User :=
  ⟨5, "e@x.com", some "HEVE", some "ADMINEVE9999", UserRole.ADMIN, true, false, true⟩

/-- A verified USER-role row that also holds a secondary credential. -/
def frankUser : User :=
  ⟨6, "f@x.com", some "HFRANK", some "FRANKUID", UserRole.USER, true, true, false⟩

/-- The store holding the six rows above. -/
def demoStore : List User :=
  [suRoot, bobUser, carolAdmin, danSuperAdmin, eveUnverified, frankUser]

/-- A concrete password-verification collaborator for closed evaluations: a
stored hash matches the plain password prefixed with `"H"`. -/
def demoVerifyPw (plain : String) (hashed : Option String) : Bool :=
  hashed == some ("H" ++ plain)

/-! Helper lemmas about the store operations. -/

/-- Equality of operation outcomes is decidable, so closed runs can be
checked by evaluation. -/
instance {ε α : Type} [DecidableEq ε] [DecidableEq α] : DecidableEq (Except ε α) := by
  intro a b
  cases a <;> cases b
  case error.error e f => exact decidable_of_iff (e = f) (by simp)
  case ok.ok x y => exact decidable_of_iff (x = y) (by simp)
  all_goals exact isFalse (by intro h; cases h)

/-- Reduction of `update_role` once the email lookup has resolved. -/
theorem update_role_found (store : List User) (actor : User)
    (target_email : String) (new_role : UserRole) (rand : String)
    (db_user : User)
    (hfind : findByEmail store target_email = some db_user) :
    update_role store actor target_email new_role rand =
      (if actor.role = UserRole.SUPERUSER then
        update_role_apply store db_user new_role rand
      else if actor.role = UserRole.SUPER_ADMIN then
        if ¬ (db_user.role = UserRole.USER ∨ db_user.role = UserRole.ADMIN)
            ∨ ¬ (new_role = UserRole.USER ∨ new_role = UserRole.ADMIN) then
          .error (.forbidden "SUPER_ADMIN can only toggle USER ↔ ADMIN")
        else
          update_role_apply store db_user new_role rand
      else
        .error (.forbidden "Only SUPERUSER or SUPER_ADMIN can change roles")) := by
  unfold update_role
  rw [hfind]

/-- Writing back a row that is already in the store, unchanged, leaves the
store unchanged, provided primary keys are unique. -/
theorem replaceById_self (users : List User) (u : User)
    (hmem : u ∈ users) (hids : users.Pairwise (fun a b => a.id ≠ b.id)) :
    replaceById users u = users := by
  induction users with
  | nil => simp at hmem
  | cons head tail ih =>
    rcases List.pairwise_cons.mp hids with ⟨hhead, htail⟩
    have htailmap : u ∈ tail → List.map (fun v => if v.id == u.id then u else v) tail = tail := by
      intro hu
      exact ih hu htail
    rcases List.mem_cons.mp hmem with h | h
    · subst h
      show List.map _ (u :: tail) = u :: tail
      rw [List.map_cons]
      congr 1
      · simp
      · have : ∀ v ∈ tail, (if v.id == u.id then u else v) = v := by
          intro v hv
          rw [if_neg]
          simp only [beq_iff_eq]
          exact fun hvid => (hhead v hv) hvid.symm
        calc List.map (fun v => if v.id == u.id then u else v) tail
            = List.map id tail := List.map_congr_left this
          _ = tail := List.map_id tail
    · show List.map _ (head :: tail) = head :: tail
      rw [List.map_cons]
      congr 1
      · rw [if_neg]
        simp only [beq_iff_eq]
        exact hhead u h
      · exact htailmap h

/-- Elimination for a successful `update_role_apply`: the target differed
from the requested role, the committed store writes back the returned row,
and the returned row is determined by the requested role. -/
theorem update_role_apply_ok_cases (store : List User) (db_user : User)
    (new_role : UserRole) (rand : String) (res : RoleUpdateOk)
    (h : update_role_apply store db_user new_role rand = .ok res) :
    db_user.role ≠ new_role
    ∧ res.store = replaceById store res.target
    ∧ res.detail = "User role update success"
    ∧ ((new_role = UserRole.ADMIN
          ∧ res.target = { db_user with role := UserRole.ADMIN, unique_id := some (generate_id "ADMIN" rand) })
      ∨ (new_role = UserRole.SUPER_ADMIN
          ∧ res.target = { db_user with role := UserRole.SUPER_ADMIN, unique_id := some (generate_id "SUPER_ADMIN" rand) })
      ∨ (new_role = UserRole.USER
          ∧ res.target = { db_user with role := UserRole.USER, unique_id := none })
      ∨ ((new_role = UserRole.MERCHANT ∨ new_role = UserRole.SUPERUSER)
          ∧ res.target = db_user)) := by
  unfold update_role_apply at h
  split at h
  · simp at h
  next h1 =>
  split at h
  · simp at h
  next h2 =>
  split at h
  next h3 =>
    injection h with h4
    subst h4
    exact ⟨h2, rfl, rfl, Or.inl ⟨h3, rfl⟩⟩
  next h3 =>
  split at h
  next h4 =>
    injection h with h5
    subst h5
    exact ⟨h2, rfl, rfl, Or.inr (Or.inl ⟨h4, rfl⟩)⟩
  next h4 =>
  split at h
  next h5 =>
    split at h
    · simp at h
    next h6 =>
      injection h with h7
      subst h7
      exact ⟨h2, rfl, rfl, Or.inr (Or.inr (Or.inl ⟨h5, rfl⟩))⟩
  next h5 =>
    injection h with h6
    subst h6
    refine ⟨h2, rfl, rfl, Or.inr (Or.inr (Or.inr ⟨?_, rfl⟩))⟩
    cases new_role <;> simp_all

/-- A successful `update_role` found the target by email and succeeded in
the transition continuation on it. -/
theorem update_role_ok_elim (store : List User) (actor : User)
    (target_email : String) (new_role : UserRole) (rand : String)
    (res : RoleUpdateOk)
    (h : update_role store actor target_email new_role rand = .ok res) :
    ∃ db_user, findByEmail store target_email = some db_user
      ∧ update_role_apply store db_user new_role rand = .ok res := by
  cases hf : findByEmail store target_email with
  | none =>
    unfold update_role at h
    rw [hf] at h
    simp at h
  | some db_user =>
    rw [update_role_found store actor target_email new_role rand db_user hf] at h
    refine ⟨db_user, rfl, ?_⟩
    split at h
    · exact h
    · split at h
      · split at h
        · simp at h
        · exact h
      · simp at h

/-! Claim theorems. -/

/-- C1: in `update_role`, a SUPER_ADMIN actor proceeds only when both the
found target row role and the requested role are in the set containing
USER and ADMIN, failing with Forbidden otherwise; an actor that is neither
SUPERUSER nor SUPER_ADMIN fails with Forbidden; and a SUPERUSER target
with a different requested role always fails with Forbidden, whatever the
actor role. -/
theorem update_role_permission_matrix (store : List User) (actor : User)
    (target_email : String) (new_role : UserRole) (rand : String)
    (db_user : User)
    (hfind : findByEmail store target_email = some db_user) :
    (actor.role = UserRole.SUPER_ADMIN →
      ¬ ((db_user.role = UserRole.USER ∨ db_user.role = UserRole.ADMIN)
          ∧ (new_role = UserRole.USER ∨ new_role = UserRole.ADMIN)) →
      update_role store actor target_email new_role rand
        = .error (.forbidden "SUPER_ADMIN can only toggle USER ↔ ADMIN"))
    ∧ (actor.role ≠ UserRole.SUPERUSER → actor.role ≠ UserRole.SUPER_ADMIN →
      update_role store actor target_email new_role rand
        = .error (.forbidden "Only SUPERUSER or SUPER_ADMIN can change roles"))
    ∧ (db_user.role = UserRole.SUPERUSER → new_role ≠ UserRole.SUPERUSER →
      ∃ d, update_role store actor target_email new_role rand
        = .error (.forbidden d)) := by
  rw [update_role_found store actor target_email new_role rand db_user hfind]
  refine ⟨?_, ?_, ?_⟩
  · intro ha hno
    rw [if_neg (by rw [ha]; decide), if_pos ha, if_pos (not_and_or.mp hno)]
  · intro h1 h2
    rw [if_neg h1, if_neg h2]
  · intro hsu hnr
    by_cases ha : actor.role = UserRole.SUPERUSER
    · rw [if_pos ha]
      refine ⟨"Cannot change role of SUPERUSER", ?_⟩
      unfold update_role_apply
      rw [if_pos ⟨hsu, hnr⟩]
    · rw [if_neg ha]
      by_cases hb : actor.role = UserRole.SUPER_ADMIN
      · rw [if_pos hb]
        have hL : ¬ (db_user.role = UserRole.USER ∨ db_user.role = UserRole.ADMIN) := by
          rw [hsu]; decide
        rw [if_pos (Or.inl hL)]
        exact ⟨_, rfl⟩
      · rw [if_neg hb]
        exact ⟨_, rfl⟩

/-- C1 witness: in the demo store a SUPER_ADMIN actor targeting the
SUPERUSER row with requested role ADMIN hits all three Forbidden rules. -/
theorem update_role_permission_matrix_witness :
    findByEmail demoStore "root@x.com" = some suRoot
    ∧ ((danSuperAdmin.role = UserRole.SUPER_ADMIN →
      ¬ ((suRoot.role = UserRole.USER ∨ suRoot.role = UserRole.ADMIN)
          ∧ (UserRole.ADMIN = UserRole.USER ∨ UserRole.ADMIN = UserRole.ADMIN)) →
      update_role demoStore danSuperAdmin "root@x.com" UserRole.ADMIN "R1"
        = .error (.forbidden "SUPER_ADMIN can only toggle USER ↔ ADMIN"))
    ∧ (danSuperAdmin.role ≠ UserRole.SUPERUSER → danSuperAdmin.role ≠ UserRole.SUPER_ADMIN →
      update_role demoStore danSuperAdmin "root@x.com" UserRole.ADMIN "R1"
        = .error (.forbidden "Only SUPERUSER or SUPER_ADMIN can change roles"))
    ∧ (suRoot.role = UserRole.SUPERUSER → UserRole.ADMIN ≠ UserRole.SUPERUSER →
      ∃ d, update_role demoStore danSuperAdmin "root@x.com" UserRole.ADMIN "R1"
        = .error (.forbidden d))) :=
  ⟨by decide,
   update_role_permission_matrix demoStore danSuperAdmin "root@x.com"
     UserRole.ADMIN "R1" suRoot (by decide)⟩

/-- C9: the inner branch of the transition-to-USER case that raises when
the target already has role USER is dead code: `update_role` can never
produce its Forbidden error, because the earlier same-role check already
raised on every input that would reach it. -/
theorem update_role_dead_branch (store : List User) (actor : User)
    (target_email : String) (new_role : UserRole) (rand : String) :
    update_role store actor target_email new_role rand
      ≠ .error (.forbidden "User already has USER role") := by
  have happly : ∀ db_user,
      update_role_apply store db_user new_role rand
        ≠ .error (.forbidden "User already has USER role") := by
    intro db_user
    unfold update_role_apply
    split
    · simp
    next h1 =>
    split
    · simp
    next h2 =>
    split
    · simp
    next h3 =>
    split
    · simp
    next h4 =>
    split
    next h5 =>
      split
      next h6 => exact absurd (h6.trans h5.symm) h2
      · simp
    next h5 => simp
  cases hf : findByEmail store target_email with
  | none =>
    unfold update_role
    rw [hf]
    simp
  | some db_user =>
    rw [update_role_found store actor target_email new_role rand db_user hf]
    split
    · exact happly db_user
    · split
      · split
        · simp
        · exact happly db_user
      · simp

/-- C9 witness: the dead-branch error is not produced on a concrete call
that requests USER for a target already in role USER. -/
theorem update_role_dead_branch_witness :
    update_role demoStore suRoot "b@x.com" UserRole.USER "R2"
      ≠ .error (.forbidden "User already has USER role") :=
  update_role_dead_branch demoStore suRoot "b@x.com" UserRole.USER "R2"

/-- C10: a SUPERUSER actor requesting MERCHANT or SUPERUSER for a found
target whose role is neither SUPERUSER nor the requested role gets a
successful answer while no field of the target changes: the success
detail reports a role update but no transition was performed. -/
theorem update_role_merchant_superuser_noop (store : List User) (actor : User)
    (target_email : String) (new_role : UserRole) (rand : String)
    (db_user : User)
    (hfind : findByEmail store target_email = some db_user)
    (hactor : actor.role = UserRole.SUPERUSER)
    (hns : db_user.role ≠ UserRole.SUPERUSER)
    (hne : db_user.role ≠ new_role)
    (hnr : new_role = UserRole.MERCHANT ∨ new_role = UserRole.SUPERUSER) :
    update_role store actor target_email new_role rand
      = .ok ⟨replaceById store db_user, db_user, "User role update success"⟩
    ∧ (store.Pairwise (fun a b => a.id ≠ b.id) →
        replaceById store db_user = store) := by
  constructor
  · rw [update_role_found store actor target_email new_role rand db_user hfind,
      if_pos hactor]
    unfold update_role_apply
    rw [if_neg (by intro hc; exact hns hc.1)]
    rw [if_neg hne]
    rcases hnr with h | h <;> subst h
    · rw [if_neg (by decide), if_neg (by decide), if_neg (by decide)]
    · rw [if_neg (by decide), if_neg (by decide), if_neg (by decide)]
  · intro hids
    have hmem : db_user ∈ store := by
      have := List.mem_of_find?_eq_some hfind
      exact this
    exact replaceById_self store db_user hmem hids

/-- C10 witness: the SUPERUSER actor requesting SUPERUSER for the admin row
of the demo store gets success and the store is untouched. -/
theorem update_role_merchant_superuser_noop_witness :
    (update_role demoStore suRoot "c@x.com" UserRole.SUPERUSER "R3"
      = .ok ⟨replaceById demoStore carolAdmin, carolAdmin, "User role update success"⟩
    ∧ (demoStore.Pairwise (fun a b => a.id ≠ b.id) →
        replaceById demoStore carolAdmin = demoStore))
    ∧ replaceById demoStore carolAdmin = demoStore :=
  ⟨update_role_merchant_superuser_noop demoStore suRoot "c@x.com"
      UserRole.SUPERUSER "R3" carolAdmin (by decide) (by decide) (by decide)
      (by decide) (by decide),
   (update_role_merchant_superuser_noop demoStore suRoot "c@x.com"
      UserRole.SUPERUSER "R3" carolAdmin (by decide) (by decide) (by decide)
      (by decide) (by decide)).2 (by decide)⟩

/-- C2 counterexample: the claim fails as stated. A SUPERUSER actor
requesting MERCHANT for the USER-role target succeeds, yet the secondary
credential is unchanged (still null) although the requested role is not
USER: both the rotation conjunct and the null-iff-USER conjunct are false
on this successful call. -/
theorem update_role_rotation_counterexample :
    update_role demoStore suRoot "b@x.com" UserRole.MERCHANT "R4"
      = .ok ⟨demoStore, bobUser, "User role update success"⟩
    ∧ bobUser.unique_id = none
    ∧ UserRole.MERCHANT ≠ UserRole.USER := by
  refine ⟨?_, rfl, by decide⟩
  decide

/-- C2 amended: for every successful `update_role` call whose requested
role is one of the three transition targets USER, ADMIN or SUPER_ADMIN,
the secondary credential after the call is null exactly when the
requested role is USER, and it differs from its previous value provided
the freshly generated role-prefixed id differs from the stored value (for
ADMIN and SUPER_ADMIN) and the stored value was non-null (for USER).
Requested roles MERCHANT and SUPERUSER are excluded: there the call
succeeds without touching the row. -/
theorem update_role_rotation_amended (store : List User) (actor : User)
    (target_email : String) (new_role : UserRole) (rand : String)
    (res : RoleUpdateOk)
    (hok : update_role store actor target_email new_role rand = .ok res)
    (htrans : new_role = UserRole.USER ∨ new_role = UserRole.ADMIN
      ∨ new_role = UserRole.SUPER_ADMIN) :
    (res.target.unique_id = none ↔ new_role = UserRole.USER)
    ∧ (∀ db_user, findByEmail store target_email = some db_user →
        (new_role = UserRole.USER → db_user.unique_id ≠ none) →
        (new_role ≠ UserRole.USER →
          some (generate_id (roleTag new_role) rand) ≠ db_user.unique_id) →
        res.target.unique_id ≠ db_user.unique_id) := by
  rcases update_role_ok_elim store actor target_email new_role rand res hok
    with ⟨db_user, hfind, happly⟩
  rcases update_role_apply_ok_cases store db_user new_role rand res happly
    with ⟨-, -, -, hcases⟩
  rcases hcases with ⟨hr, ht⟩ | ⟨hr, ht⟩ | ⟨hr, ht⟩ | ⟨hr, ht⟩
  · subst hr
    constructor
    · rw [ht]; simp
    · intro v hv hnull hfresh
      rw [hfind] at hv
      injection hv with hv
      subst hv
      rw [ht]
      intro hcontra
      exact hfresh (by decide) (by simpa [roleTag] using hcontra)
  · subst hr
    constructor
    · rw [ht]; simp
    · intro v hv hnull hfresh
      rw [hfind] at hv
      injection hv with hv
      subst hv
      rw [ht]
      intro hcontra
      exact hfresh (by decide) (by simpa [roleTag] using hcontra)
  · subst hr
    constructor
    · rw [ht]; simp
    · intro v hv hnull hfresh
      rw [hfind] at hv
      injection hv with hv
      subst hv
      rw [ht]
      intro hcontra
      exact hnull rfl (by simpa using hcontra.symm)
  · rcases hr with hr | hr <;> subst hr <;> simp at htrans

/-- Reduction of `login` when the inputs are non-empty and the email
lookup found no row. -/
theorem login_notfound (store : List User)
    (verify_pw : String → Option String → Bool) (fake_hash : String)
    (email password unique_id : String)
    (hne : ¬ (email = "" ∨ password = "" ∨ unique_id = ""))
    (hfind : findByEmail store email = none) :
    login store verify_pw fake_hash email password unique_id
      = .error (.invalidCredentials "Invalid email or password") := by
  unfold login
  rw [if_neg hne, hfind]

/-- Reduction of `login` when the inputs are non-empty and the email
lookup found a row. -/
theorem login_found (store : List User)
    (verify_pw : String → Option String → Bool) (fake_hash : String)
    (email password unique_id : String) (u : User)
    (hne : ¬ (email = "" ∨ password = "" ∨ unique_id = ""))
    (hfind : findByEmail store email = some u) :
    login store verify_pw fake_hash email password unique_id =
      (if ¬ (verify_pw password u.hashed_password ∧ (some unique_id == u.unique_id)) then
        .error (.invalidCredentials "Invalid email or password")
      else if ¬ u.is_verified then
        .error (.forbidden "Email not verified")
      else if ¬ (u.role = UserRole.ADMIN ∨ u.role = UserRole.SUPER_ADMIN
                 ∨ u.role = UserRole.SUPERUSER) then
        .error (.forbidden "Admin approval required")
      else
        .ok u) := by
  unfold login
  rw [if_neg hne, hfind]

/-- C6: with a non-empty credential triple, `login` answers an absent
email, a wrong password on an existing email, and a wrong secondary
credential on an existing email with the one generic InvalidCredentials
error, indistinguishable across the three cases. -/
theorem login_generic_invalid_credentials (store : List User)
    (verify_pw : String → Option String → Bool) (fake_hash : String)
    (email password unique_id : String)
    (hne : email ≠ "" ∧ password ≠ "" ∧ unique_id ≠ "") :
    (findByEmail store email = none →
      login store verify_pw fake_hash email password unique_id
        = .error (.invalidCredentials "Invalid email or password"))
    ∧ (∀ u, findByEmail store email = some u →
        verify_pw password u.hashed_password = false →
        login store verify_pw fake_hash email password unique_id
          = .error (.invalidCredentials "Invalid email or password"))
    ∧ (∀ u, findByEmail store email = some u →
        some unique_id ≠ u.unique_id →
        login store verify_pw fake_hash email password unique_id
          = .error (.invalidCredentials "Invalid email or password")) := by
  have hne' : ¬ (email = "" ∨ password = "" ∨ unique_id = "") := by
    rcases hne with ⟨h1, h2, h3⟩
    rintro (h | h | h) <;> [exact h1 h; exact h2 h; exact h3 h]
  refine ⟨?_, ?_, ?_⟩
  · intro hfind
    exact login_notfound store verify_pw fake_hash email password unique_id hne' hfind
  · intro u hfind hpw
    rw [login_found store verify_pw fake_hash email password unique_id u hne' hfind]
    rw [if_pos (by rw [hpw]; simp)]
  · intro u hfind huid
    rw [login_found store verify_pw fake_hash email password unique_id u hne' hfind]
    rw [if_pos (by simp [huid])]

/-- C6 witness: in the demo store, an unknown email, the right email with
a wrong password, and the right email with a wrong secondary credential
all produce the identical InvalidCredentials error. -/
theorem login_generic_invalid_credentials_witness :
    (("zz@x.com" : String) ≠ "" ∧ ("PW" : String) ≠ "" ∧ ("UID" : String) ≠ "")
    ∧ ((findByEmail demoStore "zz@x.com" = none →
      login demoStore demoVerifyPw "HFAKE" "zz@x.com" "PW" "UID"
        = .error (.invalidCredentials "Invalid email or password"))
    ∧ (∀ u, findByEmail demoStore "zz@x.com" = some u →
        demoVerifyPw "PW" u.hashed_password = false →
        login demoStore demoVerifyPw "HFAKE" "zz@x.com" "PW" "UID"
          = .error (.invalidCredentials "Invalid email or password"))
    ∧ (∀ u, findByEmail demoStore "zz@x.com" = some u →
        some "UID" ≠ u.unique_id →
        login demoStore demoVerifyPw "HFAKE" "zz@x.com" "PW" "UID"
          = .error (.invalidCredentials "Invalid email or password"))) :=
  ⟨by decide,
   login_generic_invalid_credentials demoStore demoVerifyPw "HFAKE"
     "zz@x.com" "PW" "UID" (by decide)⟩

/-- C7 counterexample: the claim fails as stated. Both post-authentication
rejections of `login` are raised through `Exceptions.forbidden`, so the
unverified-identity rejection is not a distinct NotVerified error kind:
it shares the Forbidden kind with the role rejection, and the two differ
only in their reason strings. -/
theorem login_post_auth_kinds_counterexample :
    login demoStore demoVerifyPw "HFAKE" "e@x.com" "EVE" "ADMINEVE9999"
      = .error (.forbidden "Email not verified")
    ∧ login demoStore demoVerifyPw "HFAKE" "f@x.com" "FRANK" "FRANKUID"
      = .error (.forbidden "Admin approval required")
    ∧ (Err.forbidden "Email not verified").kind
      = (Err.forbidden "Admin approval required").kind := by
  refine ⟨by decide, by decide, rfl⟩

/-- C7 amended: once the credential triple has been validated against a
found row, an unverified identity is rejected with Forbidden carrying the
reason string for unverified email, and a verified identity with a role
outside the privileged set is rejected with Forbidden carrying the
admin-approval reason; the two rejections share the Forbidden error kind
and differ only in the reason string; and within `login`, a Forbidden
error arises only after the credential triple validated. -/
theorem login_post_auth_checks (store : List User)
    (verify_pw : String → Option String → Bool) (fake_hash : String)
    (email password unique_id : String) (u : User)
    (hne : email ≠ "" ∧ password ≠ "" ∧ unique_id ≠ "")
    (hfind : findByEmail store email = some u)
    (hpw : verify_pw password u.hashed_password = true)
    (huid : some unique_id = u.unique_id) :
    (u.is_verified = false →
      login store verify_pw fake_hash email password unique_id
        = .error (.forbidden "Email not verified"))
    ∧ (u.is_verified = true →
      ¬ (u.role = UserRole.ADMIN ∨ u.role = UserRole.SUPER_ADMIN
         ∨ u.role = UserRole.SUPERUSER) →
      login store verify_pw fake_hash email password unique_id
        = .error (.forbidden "Admin approval required"))
    ∧ (Err.forbidden "Email not verified").kind
      = (Err.forbidden "Admin approval required").kind
    ∧ (∀ e p i d, login store verify_pw fake_hash e p i = .error (.forbidden d) →
        ∃ v, findByEmail store e = some v ∧ verify_pw p v.hashed_password = true
          ∧ some i = v.unique_id) := by
  have hne' : ¬ (email = "" ∨ password = "" ∨ unique_id = "") := by
    rcases hne with ⟨h1, h2, h3⟩
    rintro (h | h | h) <;> [exact h1 h; exact h2 h; exact h3 h]
  have hcred : ¬ ¬ (verify_pw password u.hashed_password
      ∧ (some unique_id == u.unique_id)) := by
    rw [not_not, hpw]
    exact ⟨rfl, by rw [huid]; simp⟩
  refine ⟨?_, ?_, rfl, ?_⟩
  · intro hv
    rw [login_found store verify_pw fake_hash email password unique_id u hne' hfind]
    rw [if_neg hcred, if_pos (by rw [hv]; simp)]
  · intro hv hrole
    rw [login_found store verify_pw fake_hash email password unique_id u hne' hfind]
    rw [if_neg hcred, if_neg (by rw [hv]; simp), if_pos hrole]
  · intro e p i d h
    by_cases hvac : e = "" ∨ p = "" ∨ i = ""
    · unfold login at h
      rw [if_pos hvac] at h
      simp at h
    · cases hf : findByEmail store e with
      | none =>
        rw [login_notfound store verify_pw fake_hash e p i hvac hf] at h
        simp at h
      | some v =>
        rw [login_found store verify_pw fake_hash e p i v hvac hf] at h
        refine ⟨v, rfl, ?_⟩
        split at h
        · simp at h
        next hcr =>
          have hcr2 := not_not.mp (by exact hcr)
          exact ⟨hcr2.1, by have := hcr2.2; simpa [beq_iff_eq] using this⟩

/-- C7 amended witness: the unverified admin row of the demo store with
valid credentials is rejected with the Forbidden reason for unverified
email. -/
theorem login_post_auth_checks_witness :
    (("e@x.com" : String) ≠ "" ∧ ("EVE" : String) ≠ "" ∧ ("ADMINEVE9999" : String) ≠ "")
    ∧ ((eveUnverified.is_verified = false →
      login demoStore demoVerifyPw "HFAKE" "e@x.com" "EVE" "ADMINEVE9999"
        = .error (.forbidden "Email not verified"))
    ∧ (eveUnverified.is_verified = true →
      ¬ (eveUnverified.role = UserRole.ADMIN ∨ eveUnverified.role = UserRole.SUPER_ADMIN
         ∨ eveUnverified.role = UserRole.SUPERUSER) →
      login demoStore demoVerifyPw "HFAKE" "e@x.com" "EVE" "ADMINEVE9999"
        = .error (.forbidden "Admin approval required"))
    ∧ (Err.forbidden "Email not verified").kind
      = (Err.forbidden "Admin approval required").kind
    ∧ (∀ e p i d, login demoStore demoVerifyPw "HFAKE" e p i = .error (.forbidden d) →
        ∃ v, findByEmail demoStore e = some v ∧ demoVerifyPw p v.hashed_password = true
          ∧ some i = v.unique_id)) :=
  ⟨by decide,
   login_post_auth_checks demoStore demoVerifyPw "HFAKE"
     "e@x.com" "EVE" "ADMINEVE9999" eveUnverified
     (by decide) (by decide) (by decide) (by decide)⟩

/-- Success of `verify_code` is equivalent to the presence of a matching,
unexpired row. -/
theorem verify_code_true_iff (codes : List CodeRec) (now uid : Nat) (code : String) :
    (verify_code codes now uid code).1 = true ↔
      ∃ r ∈ codes, r.user_id = uid ∧ r.code = code ∧ now < r.expires_at := by
  unfold verify_code
  cases hf : codes.find? (vcSelect now uid code) with
  | some r =>
    constructor
    · intro _
      have hmem := List.mem_of_find?_eq_some hf
      have hr := List.find?_some hf
      simp only [vcSelect, Bool.and_eq_true, beq_iff_eq, decide_eq_true_eq] at hr
      exact ⟨r, hmem, hr.1.1, hr.1.2, hr.2⟩
    · intro _
      rfl
  | none =>
    constructor
    · intro h
      exact absurd h (by simp)
    · rintro ⟨r, hmem, h1, h2, h3⟩
      have := List.find?_eq_none.mp hf r hmem
      simp [vcSelect, h1, h2, h3] at this

/-- Failure of `verify_code` leaves the code store untouched. -/
theorem verify_code_false_frame (codes : List CodeRec) (now uid : Nat) (code : String)
    (h : (verify_code codes now uid code).1 = false) :
    (verify_code codes now uid code).2 = codes := by
  unfold verify_code at h ⊢
  cases hf : codes.find? (vcSelect now uid code) with
  | some r =>
    rw [hf] at h
    simp at h
  | none =>
    rfl

/-- Success of `verify_code` deletes the consumed row, so under the
one-code-per-identity invariant the same call cannot succeed twice. -/
theorem verify_code_single_use (codes : List CodeRec) (now uid : Nat) (code : String)
    (hpw : codes.Pairwise (fun a b => a.user_id ≠ b.user_id))
    (h : (verify_code codes now uid code).1 = true) :
    (verify_code (verify_code codes now uid code).2 now uid code).1 = false := by
  unfold verify_code at h ⊢
  cases hf : codes.find? (vcSelect now uid code) with
  | none =>
    rw [hf] at h
    simp at h
  | some r =>
    have hmem := List.mem_of_find?_eq_some hf
    have hr := List.find?_some hf
    simp only [vcSelect, Bool.and_eq_true, beq_iff_eq, decide_eq_true_eq] at hr
    have hnodup : codes.Nodup :=
      hpw.imp (fun hne heq => hne (by rw [heq]))
    have herase : (codes.erase r).find? (vcSelect now uid code) = none := by
      rw [List.find?_eq_none]
      intro x hx
      rcases (List.Nodup.mem_erase_iff hnodup).mp hx with ⟨hxr, hxmem⟩
      have hxuid : x.user_id ≠ r.user_id :=
        hpw.forall (fun _ _ hab => hab.symm) hxmem hmem hxr
      intro hpred
      simp only [vcSelect, Bool.and_eq_true, beq_iff_eq, decide_eq_true_eq] at hpred
      exact hxuid (hpred.1.1.trans hr.1.1.symm)
    rw [herase]

/-- C4: `verify_code` returns true exactly when a stored row for the
identity carries the supplied code with an expiry strictly later than
now; a successful call deletes the row, so (given the one-live-code-per-
identity invariant) repeating the call returns false; a failed call
mutates nothing; and as a total function the operation never raises. -/
theorem verify_code_spec (codes : List CodeRec) (now uid : Nat) (code : String) :
    ((verify_code codes now uid code).1 = true ↔
      ∃ r ∈ codes, r.user_id = uid ∧ r.code = code ∧ now < r.expires_at)
    ∧ ((verify_code codes now uid code).1 = false →
        (verify_code codes now uid code).2 = codes)
    ∧ (codes.Pairwise (fun a b => a.user_id ≠ b.user_id) →
        (verify_code codes now uid code).1 = true →
        (verify_code (verify_code codes now uid code).2 now uid code).1 = false) :=
  ⟨verify_code_true_iff codes now uid code,
   verify_code_false_frame codes now uid code,
   fun hpw h => verify_code_single_use codes now uid code hpw h⟩

/-- C4 witness: a store holding one matching unexpired code verifies once
and the repeat of the same call returns false. -/
theorem verify_code_spec_witness :
    ((verify_code [⟨1, 7, "123456", 10⟩] 3 7 "123456").1 = true
      ↔ ∃ r ∈ [(⟨1, 7, "123456", 10⟩ : CodeRec)], r.user_id = 7
          ∧ r.code = "123456" ∧ 3 < r.expires_at)
    ∧ (verify_code (verify_code [⟨1, 7, "123456", 10⟩] 3 7 "123456").2 3 7 "123456").1
        = false :=
  ⟨(verify_code_spec [⟨1, 7, "123456", 10⟩] 3 7 "123456").1,
   (verify_code_spec [⟨1, 7, "123456", 10⟩] 3 7 "123456").2.2
     (by decide) (by decide)⟩

/-- C5: as written, `generate_verification_code` never issues a code on
any input: the async row lookup is not awaited, the resulting coroutine
object is truthy, and the replace branch then assigns to an attribute of
the coroutine, raising AttributeError before any row is written. -/
theorem generate_verification_code_always_raises (codes : List CodeRec)
    (user_id : Nat) (code6 : String) (now freshId : Nat) :
    generate_verification_code codes user_id code6 now freshId
      = .error .attributeError := rfl

/-- C8: `create_superuser` fails with Forbidden when the secret key is
wrong, and with Forbidden when a SUPERUSER row already exists; a success
implies the store had no SUPERUSER row before and exactly one after, and
afterwards every further call, with any inputs, fails with Forbidden. -/
theorem create_superuser_singleton (store : List User) (cfg : String)
    (email password secret_key : String) (hash_pw : String → String)
    (rand : String) (newId : Nat) :
    (secret_key ≠ cfg →
      create_superuser store cfg email password secret_key hash_pw rand newId
        = .error (.forbidden "Forbidden"))
    ∧ ((∃ u ∈ store, u.role = UserRole.SUPERUSER) →
      ∃ d, create_superuser store cfg email password secret_key hash_pw rand newId
        = .error (.forbidden d))
    ∧ (∀ store2 u,
      create_superuser store cfg email password secret_key hash_pw rand newId
        = .ok (store2, u) →
      store.countP (fun v => v.role == UserRole.SUPERUSER) = 0
      ∧ store2.countP (fun v => v.role == UserRole.SUPERUSER) = 1
      ∧ ∀ e2 p2 s2 h2 r2 n2, ∃ d,
          create_superuser store2 cfg e2 p2 s2 h2 r2 n2
            = .error (.forbidden d)) := by
  refine ⟨?_, ?_, ?_⟩
  · intro hk
    unfold create_superuser
    rw [if_pos hk]
  · rintro ⟨u, hmem, hrole⟩
    by_cases hk : secret_key ≠ cfg
    · exact ⟨"Forbidden", by unfold create_superuser; rw [if_pos hk]⟩
    · refine ⟨"Superuser already exists", ?_⟩
      unfold create_superuser
      rw [if_neg hk]
      cases hf : store.find? (fun v => v.role == UserRole.SUPERUSER) with
      | some w => rfl
      | none =>
        have := List.find?_eq_none.mp hf u hmem
        simp [hrole] at this
  · intro store2 u hok
    unfold create_superuser at hok
    split at hok
    · simp at hok
    next hk =>
    cases hf : store.find? (fun v => v.role == UserRole.SUPERUSER) with
    | some w =>
      rw [hf] at hok
      simp at hok
    | none =>
      rw [hf] at hok
      injection hok with hok2
      have hzero : store.countP (fun v => v.role == UserRole.SUPERUSER) = 0 := by
        rw [List.countP_eq_zero]
        exact List.find?_eq_none.mp hf
      have hpair : store2 = store ++ [u] ∧ u.role = UserRole.SUPERUSER := by
        have h1 := congrArg Prod.fst hok2
        have h2 := congrArg Prod.snd hok2
        simp at h1 h2
        subst h2
        exact ⟨h1.symm, rfl⟩
      rcases hpair with ⟨hs2, hurole⟩
      have hone : store2.countP (fun v => v.role == UserRole.SUPERUSER) = 1 := by
        rw [hs2, List.countP_append, hzero]
        simp [List.countP, List.countP.go, hurole]
      refine ⟨hzero, hone, ?_⟩
      intro e2 p2 s2 h2 r2 n2
      by_cases hk2 : s2 ≠ cfg
      · exact ⟨"Forbidden", by unfold create_superuser; rw [if_pos hk2]⟩
      · refine ⟨"Superuser already exists", ?_⟩
        unfold create_superuser
        rw [if_neg hk2]
        have hsome : (store2.find? (fun v => v.role == UserRole.SUPERUSER)).isSome := by
          rw [List.find?_isSome]
          exact ⟨u, by rw [hs2]; simp, by simp [hurole]⟩
        cases hf2 : store2.find? (fun v => v.role == UserRole.SUPERUSER) with
        | some w => rfl
        | none => rw [hf2] at hsome; simp at hsome

/-- C8 witness: bootstrapping on an empty store with the right secret
succeeds; the repeat call on the resulting store fails with Forbidden. -/
theorem create_superuser_singleton_witness :
    (create_superuser [] "SECRET" "root@x.com" "pw" "SECRET"
        (fun s => "H" ++ s) "AAA" 1
      = .ok ([⟨1, "root@x.com", some "Hpw", some "SUPERUSERAAA",
              UserRole.SUPERUSER, true, false, false⟩],
             ⟨1, "root@x.com", some "Hpw", some "SUPERUSERAAA",
              UserRole.SUPERUSER, true, false, false⟩))
    ∧ ([] : List User).countP (fun v => v.role == UserRole.SUPERUSER) = 0
    ∧ ([⟨1, "root@x.com", some "Hpw", some "SUPERUSERAAA",
         UserRole.SUPERUSER, true, false, false⟩] : List User).countP
        (fun v => v.role == UserRole.SUPERUSER) = 1
    ∧ ∀ e2 p2 s2 h2 r2 n2, ∃ d,
        create_superuser [⟨1, "root@x.com", some "Hpw", some "SUPERUSERAAA",
          UserRole.SUPERUSER, true, false, false⟩] "SECRET" e2 p2 s2 h2 r2 n2
          = .error (.forbidden d) := by
  have h := (create_superuser_singleton [] "SECRET" "root@x.com" "pw" "SECRET"
    (fun s => "H" ++ s) "AAA" 1).2.2
    [⟨1, "root@x.com", some "Hpw", some "SUPERUSERAAA",
      UserRole.SUPERUSER, true, false, false⟩]
    ⟨1, "root@x.com", some "Hpw", some "SUPERUSERAAA",
      UserRole.SUPERUSER, true, false, false⟩
    (by decide)
  exact ⟨by decide, h.1, h.2.1, h.2.2⟩

/-- Appending to a string is injective on the appended part. -/
theorem string_append_left_cancel {a b c : String} (h : a ++ b = a ++ c) : b = c := by
  have hd := congrArg String.data h
  simp only [String.data_append] at hd
  exact String.ext (List.append_cancel_left hd)

/-- Rotation keeps every column except the secondary credential. -/
theorem rotate_unique_id_fields (u : User) (r : String) :
    (rotate_unique_id u r).id = u.id ∧ (rotate_unique_id u r).email = u.email
    ∧ (rotate_unique_id u r).role = u.role
    ∧ (rotate_unique_id u r).hashed_password = u.hashed_password := by
  unfold rotate_unique_id
  split
  · exact ⟨rfl, rfl, rfl, rfl⟩
  · split
    · exact ⟨rfl, rfl, rfl, rfl⟩
    · split
      · exact ⟨rfl, rfl, rfl, rfl⟩
      · exact ⟨rfl, rfl, rfl, rfl⟩

/-- For the three privileged roles, rotation writes the role-tagged fresh
id into the secondary credential. -/
theorem rotate_unique_id_priv (u : User) (r : String)
    (hrole : u.role = UserRole.ADMIN ∨ u.role = UserRole.SUPER_ADMIN
      ∨ u.role = UserRole.SUPERUSER) :
    rotate_unique_id u r
      = { u with unique_id := some (generate_id (roleTag u.role) r) } := by
  rcases hrole with h | h | h <;>
    simp [rotate_unique_id, roleTag, h]

/-- For the three privileged roles, the rotated secondary credential is
the role-tagged fresh id. -/
theorem rotate_unique_id_uid_priv (w : User) (r : String)
    (hrole : w.role = UserRole.ADMIN ∨ w.role = UserRole.SUPER_ADMIN
      ∨ w.role = UserRole.SUPERUSER) :
    (rotate_unique_id w r).unique_id = some (generate_id (roleTag w.role) r) := by
  rcases hrole with h | h | h <;> simp [rotate_unique_id, roleTag, h]

/-- The id column is untouched by a committed row update. -/
theorem replaceById_pairwise_ids (users : List User) (v : User)
    (hids : users.Pairwise (fun a b => a.id ≠ b.id)) :
    (replaceById users v).Pairwise (fun a b => a.id ≠ b.id) := by
  unfold replaceById
  refine List.Pairwise.map _ ?_ hids
  intro a b hab
  have ha : ((if a.id == v.id then v else a)).id = a.id := by
    split
    next h => simp only [beq_iff_eq] at h; rw [h]
    next => rfl
  have hb : ((if b.id == v.id then v else b)).id = b.id := by
    split
    next h => simp only [beq_iff_eq] at h; rw [h]
    next => rfl
  rw [ha, hb]
  exact hab

/-- Looking up by email after a committed update of the found row returns
the updated row, provided ids are unique and the update kept id and
email. -/
theorem findByEmail_replaceById (users : List User) (e : String) (u v : User)
    (hids : users.Pairwise (fun a b => a.id ≠ b.id))
    (hfind : findByEmail users e = some u)
    (hid : v.id = u.id) (hemail : v.email = u.email) :
    findByEmail (replaceById users v) e = some v := by
  induction users with
  | nil => simp [findByEmail] at hfind
  | cons head tail ih =>
    rcases List.pairwise_cons.mp hids with ⟨hhead, htail⟩
    unfold findByEmail at hfind ⊢
    by_cases hh : (head.email == e) = true
    · rw [@List.find?_cons_of_pos User (fun w => w.email == e) head tail hh] at hfind
      injection hfind with hfind
      subst hfind
      have hrepl : replaceById (head :: tail) v
          = v :: List.map (fun w => if w.id == v.id then v else w) tail := by
        unfold replaceById
        rw [List.map_cons, if_pos (by simp [beq_iff_eq, hid])]
      rw [hrepl]
      refine @List.find?_cons_of_pos User (fun w => w.email == e) v _ ?_
      show (v.email == e) = true
      rw [hemail]
      exact hh
    · rw [@List.find?_cons_of_neg User (fun w => w.email == e) head tail (by simpa using hh)] at hfind
      have humem : u ∈ tail := List.mem_of_find?_eq_some hfind
      have hhid : head.id ≠ u.id := hhead u humem
      have hrepl : replaceById (head :: tail) v
          = head :: replaceById tail v := by
        unfold replaceById
        rw [List.map_cons, if_neg (by
          simp only [beq_iff_eq]
          exact fun hc => hhid (hc.trans hid))]
      rw [hrepl]
      rw [@List.find?_cons_of_neg User (fun w => w.email == e) head (replaceById tail v) (by simpa using hh)]
      exact ih htail hfind

/-- After the spec-modelled upsert, the code lookup of `verify_code` finds
exactly the upserted row, as long as it has not expired. -/
theorem find_issue_code (codes : List CodeRec) (uid : Nat) (code : String)
    (now freshId now2 : Nat) (h2 : now2 < now + 10) :
    (issue_code codes uid code now freshId).find? (vcSelect now2 uid code)
      = some ⟨freshId, uid, code, now + 10⟩ := by
  unfold issue_code
  rw [List.find?_append]
  have hnone : (codes.filter (fun r => r.user_id ≠ uid)).find?
      (vcSelect now2 uid code) = none := by
    rw [List.find?_eq_none]
    intro x hx
    have hxne := (List.mem_filter.mp hx).2
    simp only [decide_eq_true_eq] at hxne
    simp only [vcSelect, Bool.and_eq_true, beq_iff_eq, decide_eq_true_eq, not_and]
    intro hxuid
    exact absurd hxuid.1 hxne
  rw [hnone]
  simp [vcSelect, h2]

/-- Reduction of reset phase 1 once the email lookup has resolved. -/
theorem request_password_reset_found (users : List User) (codes : List CodeRec)
    (email : String) (unique_id secret : Option String) (cfg code6 : String)
    (now freshId : Nat) (u : User)
    (hfind : findByEmail users email = some u) :
    request_password_reset users codes email unique_id secret cfg code6 now freshId =
      (if ¬ u.is_verified then
        .error (.forbidden "Email not verified")
      else if ¬ (u.role = UserRole.SUPERUSER ∨ u.role = UserRole.SUPER_ADMIN
                 ∨ u.role = UserRole.ADMIN) then
        .error (.forbidden "Only ADMIN, SUPER_ADMIN, and SUPERUSER can use this reset flow")
      else if u.role = UserRole.SUPERUSER then
        if ¬ (truthyS secret ∧ truthyS unique_id) then
          .error (.forbidden "Superuser requires secret key and unique_id")
        else if secret ≠ some cfg then
          .error (.forbidden "Invalid superuser secret key")
        else if unique_id ≠ u.unique_id then
          .error (.invalidCredentials "Invalid unique_id")
        else
          .ok (code6, issue_code codes u.id code6 now freshId)
      else
        if ¬ truthyS unique_id then
          .error (.forbidden "Admin/Superadmin requires unique_id")
        else if unique_id ≠ u.unique_id then
          .error (.invalidCredentials "Invalid unique_id")
        else
          .ok (code6, issue_code codes u.id code6 now freshId)) := by
  unfold request_password_reset
  rw [hfind]

/-- Reset phase 1 succeeds and issues the drawn code when the caller is a
verified privileged identity supplying its stored secondary credential
(and, for SUPERUSER, the configured secret). -/
theorem request_password_reset_ok (users : List User) (codes : List CodeRec)
    (email : String) (u : User) (uid cfg : String) (secret : Option String)
    (code6 : String) (now1 freshId : Nat)
    (hfind : findByEmail users email = some u)
    (hver : u.is_verified = true)
    (hrole : u.role = UserRole.ADMIN ∨ u.role = UserRole.SUPER_ADMIN
      ∨ u.role = UserRole.SUPERUSER)
    (huid : u.unique_id = some uid) (huidne : uid ≠ "")
    (hsec : u.role = UserRole.SUPERUSER → secret = some cfg ∧ cfg ≠ "") :
    request_password_reset users codes email (some uid) secret cfg code6 now1 freshId
      = .ok (code6, issue_code codes u.id code6 now1 freshId) := by
  rw [request_password_reset_found users codes email (some uid) secret cfg
    code6 now1 freshId u hfind]
  rw [if_neg (by simp [hver])]
  rw [if_neg (by rcases hrole with h | h | h <;> simp [h])]
  rcases hrole with h | h | h
  · rw [if_neg (by simp [h])]
    rw [if_neg (by simp [truthyS, huidne])]
    rw [if_neg (by simp [huid])]
  · rw [if_neg (by simp [h])]
    rw [if_neg (by simp [truthyS, huidne])]
    rw [if_neg (by simp [huid])]
  · rw [if_pos h]
    have hs := hsec h
    rw [if_neg (by simp [truthyS, hs.1, hs.2, huidne])]
    rw [if_neg (by simp [hs.1])]
    rw [if_neg (by simp [huid])]

/-- Reduction of reset phase 2 once the email lookup has resolved. -/
theorem verify_reset_code_found (users : List User) (codes : List CodeRec)
    (email vcode : String) (now : Nat) (rand : String) (u : User)
    (hfind : findByEmail users email = some u) :
    verify_reset_code users codes email vcode now rand =
      (match verify_code codes now u.id vcode with
       | (false, _) => .error (.invalidVerificationCode "Invalid Verification code")
       | (true, codes2) =>
         .ok (replaceById users (rotate_unique_id u rand), codes2,
              (rotate_unique_id u rand).unique_id)) := by
  unfold verify_reset_code
  rw [hfind]

/-- Reduction of reset phase 3 once the email lookup has resolved. -/
theorem reset_password_with_otp_found (users : List User)
    (email otp newpw : String) (hash_pw : String → String) (rand : String)
    (u : User)
    (hfind : findByEmail users email = some u) :
    reset_password_with_otp users email otp newpw hash_pw rand =
      (if some otp ≠ u.unique_id then
        .error (.invalidCredentials "Invalid OTP unique_id")
      else
        .ok (replaceById users
          (rotate_unique_id { u with hashed_password := some (hash_pw newpw) } rand))) := by
  unfold reset_password_with_otp
  rw [hfind]

/-- C3: starting from a verified identity in role ADMIN, SUPER_ADMIN or
SUPERUSER whose secondary credential is known (and supplying the
configured secret for SUPERUSER), the chain request-reset, verify the
returned code, reset with the returned OTP succeeds, and replaying the
third phase with the same, now superseded, OTP fails with
InvalidCredentials: phase 3 rotated the secondary credential before
returning. Hypotheses: unique ids in the store, the phase-2 call happens
before the 10-minute expiry, and the rotation draws of phases 2 and 3
differ (the random id oracle). -/
theorem reset_protocol_round_trip
    (users : List User) (codes : List CodeRec) (email : String) (u : User)
    (uid cfg : String) (secret : Option String)
    (code6 : String) (now1 now2 freshId : Nat)
    (rand2 rand3 rand4 : String) (newpw newpw2 : String)
    (hash_pw : String → String)
    (hids : users.Pairwise (fun a b => a.id ≠ b.id))
    (hfind : findByEmail users email = some u)
    (hver : u.is_verified = true)
    (hrole : u.role = UserRole.ADMIN ∨ u.role = UserRole.SUPER_ADMIN
      ∨ u.role = UserRole.SUPERUSER)
    (huid : u.unique_id = some uid) (huidne : uid ≠ "")
    (hsec : u.role = UserRole.SUPERUSER → secret = some cfg ∧ cfg ≠ "")
    (htime : now2 < now1 + 10)
    (hfresh : rand3 ≠ rand2) :
    ∃ codes2 users2,
      request_password_reset users codes email (some uid) secret cfg code6 now1 freshId
        = .ok (code6, issue_code codes u.id code6 now1 freshId)
      ∧ verify_reset_code users (issue_code codes u.id code6 now1 freshId)
          email code6 now2 rand2
        = .ok (replaceById users (rotate_unique_id u rand2), codes2,
               some (generate_id (roleTag u.role) rand2))
      ∧ reset_password_with_otp (replaceById users (rotate_unique_id u rand2)) email
          (generate_id (roleTag u.role) rand2) newpw hash_pw rand3
        = .ok users2
      ∧ reset_password_with_otp users2 email
          (generate_id (roleTag u.role) rand2) newpw2 hash_pw rand4
        = .error (.invalidCredentials "Invalid OTP unique_id") := by
  have hu2eq : rotate_unique_id u rand2
      = { u with unique_id := some (generate_id (roleTag u.role) rand2) } :=
    rotate_unique_id_priv u rand2 hrole
  have hvc : verify_code (issue_code codes u.id code6 now1 freshId) now2 u.id code6
      = (true, (issue_code codes u.id code6 now1 freshId).erase
          ⟨freshId, u.id, code6, now1 + 10⟩) := by
    unfold verify_code
    rw [find_issue_code codes u.id code6 now1 freshId now2 htime]
  have hphase1 := request_password_reset_ok users codes email u uid cfg secret
    code6 now1 freshId hfind hver hrole huid huidne hsec
  have hphase2 : verify_reset_code users (issue_code codes u.id code6 now1 freshId)
      email code6 now2 rand2
      = .ok (replaceById users (rotate_unique_id u rand2),
             (issue_code codes u.id code6 now1 freshId).erase
               ⟨freshId, u.id, code6, now1 + 10⟩,
             some (generate_id (roleTag u.role) rand2)) := by
    rw [verify_reset_code_found users _ email code6 now2 rand2 u hfind, hvc, hu2eq]
  have hfields2 := rotate_unique_id_fields u rand2
  have hfind1 : findByEmail (replaceById users (rotate_unique_id u rand2)) email
      = some (rotate_unique_id u rand2) :=
    findByEmail_replaceById users email u (rotate_unique_id u rand2) hids hfind
      hfields2.1 hfields2.2.1
  have hphase3 : reset_password_with_otp (replaceById users (rotate_unique_id u rand2))
      email (generate_id (roleTag u.role) rand2) newpw hash_pw rand3
      = .ok (replaceById (replaceById users (rotate_unique_id u rand2))
          (rotate_unique_id
            { rotate_unique_id u rand2 with hashed_password := some (hash_pw newpw) }
            rand3)) := by
    rw [reset_password_with_otp_found _ email _ newpw hash_pw rand3 _ hfind1]
    rw [if_neg (by simp [hu2eq])]
  have hw3role : ({ rotate_unique_id u rand2 with
      hashed_password := some (hash_pw newpw) } : User).role = u.role :=
    hfields2.2.2.1
  have hrole3 : ({ rotate_unique_id u rand2 with
      hashed_password := some (hash_pw newpw) } : User).role = UserRole.ADMIN
      ∨ ({ rotate_unique_id u rand2 with
      hashed_password := some (hash_pw newpw) } : User).role = UserRole.SUPER_ADMIN
      ∨ ({ rotate_unique_id u rand2 with
      hashed_password := some (hash_pw newpw) } : User).role = UserRole.SUPERUSER := by
    rw [hw3role]
    exact hrole
  have hu3uid : (rotate_unique_id
      { rotate_unique_id u rand2 with hashed_password := some (hash_pw newpw) }
      rand3).unique_id
      = some (generate_id (roleTag u.role) rand3) := by
    have h := rotate_unique_id_uid_priv
      { rotate_unique_id u rand2 with hashed_password := some (hash_pw newpw) }
      rand3 hrole3
    rw [hw3role] at h
    exact h
  have hfields3 := rotate_unique_id_fields
    { rotate_unique_id u rand2 with hashed_password := some (hash_pw newpw) } rand3
  have hids1 : (replaceById users (rotate_unique_id u rand2)).Pairwise
      (fun a b => a.id ≠ b.id) :=
    replaceById_pairwise_ids users (rotate_unique_id u rand2) hids
  have hfind2 : findByEmail
      (replaceById (replaceById users (rotate_unique_id u rand2))
        (rotate_unique_id
          { rotate_unique_id u rand2 with hashed_password := some (hash_pw newpw) }
          rand3)) email
      = some (rotate_unique_id
          { rotate_unique_id u rand2 with hashed_password := some (hash_pw newpw) }
          rand3) :=
    findByEmail_replaceById (replaceById users (rotate_unique_id u rand2)) email
      (rotate_unique_id u rand2)
      (rotate_unique_id
        { rotate_unique_id u rand2 with hashed_password := some (hash_pw newpw) }
        rand3)
      hids1 hfind1 hfields3.1 hfields3.2.1
  have hreplay : reset_password_with_otp
      (replaceById (replaceById users (rotate_unique_id u rand2))
        (rotate_unique_id
          { rotate_unique_id u rand2 with hashed_password := some (hash_pw newpw) }
          rand3)) email
      (generate_id (roleTag u.role) rand2) newpw2 hash_pw rand4
      = .error (.invalidCredentials "Invalid OTP unique_id") := by
    rw [reset_password_with_otp_found _ email _ newpw2 hash_pw rand4 _ hfind2]
    rw [if_pos]
    rw [hu3uid]
    intro hcontra
    simp only [Option.some.injEq] at hcontra
    have hr23 := string_append_left_cancel (a := roleTag u.role) (by
      simpa [generate_id] using hcontra)
    exact hfresh hr23.symm
  exact ⟨_, _, hphase1, hphase2, hphase3, hreplay⟩

/-- C3 witness: the single-admin store runs the three phases on concrete
inputs; the replay of phase 3 with the superseded OTP fails. -/
theorem reset_protocol_round_trip_witness :
    findByEmail [carolAdmin] "c@x.com" = some carolAdmin
    ∧ ∃ codes2 users2,
      request_password_reset [carolAdmin] [] "c@x.com" (some "ADMIN1A2B3C4")
          none "CFG" "482913" 0 1
        = .ok ("482913", issue_code [] carolAdmin.id "482913" 0 1)
      ∧ verify_reset_code [carolAdmin] (issue_code [] carolAdmin.id "482913" 0 1)
          "c@x.com" "482913" 5 "9Z8Y7X6W"
        = .ok (replaceById [carolAdmin] (rotate_unique_id carolAdmin "9Z8Y7X6W"),
               codes2, some (generate_id (roleTag carolAdmin.role) "9Z8Y7X6W"))
      ∧ reset_password_with_otp
          (replaceById [carolAdmin] (rotate_unique_id carolAdmin "9Z8Y7X6W"))
          "c@x.com" (generate_id (roleTag carolAdmin.role) "9Z8Y7X6W")
          "NewPass1" (fun s => "H" ++ s) "3C3C3C3C"
        = .ok users2
      ∧ reset_password_with_otp users2 "c@x.com"
          (generate_id (roleTag carolAdmin.role) "9Z8Y7X6W")
          "x" (fun s => "H" ++ s) "4D4D4D4D"
        = .error (.invalidCredentials "Invalid OTP unique_id") :=
  ⟨by decide,
   reset_protocol_round_trip [carolAdmin] [] "c@x.com" carolAdmin
     "ADMIN1A2B3C4" "CFG" none "482913" 0 5 1 "9Z8Y7X6W" "3C3C3C3C" "4D4D4D4D"
     "NewPass1" "x" (fun s => "H" ++ s)
     (by decide) (by decide) (by decide) (by decide) (by decide) (by decide)
     (fun h => absurd h (by decide)) (by decide) (by decide)⟩

/-- C2 amended witness: transitioning the demo admin row to USER clears
the secondary credential, which differed from the stored one. -/
theorem update_role_rotation_amended_witness :
    update_role demoStore suRoot "c@x.com" UserRole.USER "R5"
      = .ok ⟨replaceById demoStore { carolAdmin with role := UserRole.USER, unique_id := none },
             { carolAdmin with role := UserRole.USER, unique_id := none },
             "User role update success"⟩
    ∧ (({ carolAdmin with role := UserRole.USER, unique_id := none } : User).unique_id = none
        ↔ UserRole.USER = UserRole.USER) := by
  have h := update_role_rotation_amended demoStore suRoot "c@x.com"
    UserRole.USER "R5"
    ⟨replaceById demoStore { carolAdmin with role := UserRole.USER, unique_id := none },
     { carolAdmin with role := UserRole.USER, unique_id := none },
     "User role update success"⟩
    (by decide) (Or.inl rfl)
  exact ⟨by decide, h.1⟩

end XSell
